import Mathlib

/-!
Verification of the scoped, token-authenticated SQL query gateway
(`src/mcp_server.py`, `src/database.py`, `src/auth_token.py`).

Python strings are embedded as `List Char` (`Str`); Python's dynamic
values (driver-returned row cells) as the inductive `PyValue`; exceptions
as `Except`; the database driver and the lazily-initialized global
connection as an explicit oracle/state record threaded through the
handlers.  Every handler additionally returns the list of database calls
it performed (`DbCall`), so "touches the database" is observable.
-/

namespace TextToSql

/-- Python strings, embedded as lists of characters. -/
abbrev Str := List Char

/-- Characters of a Lean string literal, used to transcribe Python literals. -/
def chars (s : String) : Str := s.data

/-- Python's `str.lower()` (the source only lower-cases ASCII SQL text). -/
def pyLower (s : Str) : Str := s.map Char.toLower

/-- Python's substring test `needle in hay` on strings. -/
def containsSub (needle hay : Str) : Bool := decide (needle <:+: hay)

/-- Python's `s.rstrip(';')`: drop every trailing `';'`. -/
def rstripSemis (s : Str) : Str := (s.reverse.dropWhile (fun c => c == ';')).reverse

/-- Python's `str(limit)` for the `int` limit argument. -/
def intToStr (n : Int) : Str := (toString n).data

/-- The `AccessToken` record as used by the server: caller id and scope list
(`client_id`, `scopes` fields of fastmcp's `AccessToken`). -/
structure AccessToken where
  client_id : Str
  scopes : List Str

/-- The distinct `ToolError` raise sites of `mcp_server.py`, with the data
each message carries.  `serverError` is the catch-all re-raise in each
handler's `except` block, carrying the fully rendered message. -/
inductive ToolErr where
  /-- Message 用户没有任何权限 — token present but empty scope list. -/
  | noPermissions
  /-- Message 权限不足：需要以下权限 followed by the missing scopes. -/
  | insufficientScope (missing : List Str)
  /-- Message 安全限制：不允许执行修改数据的操作 — mutation keyword found. -/
  | forbiddenOperation
  /-- Wrapped ToolError re-raised from a handler's except block, carrying the rendered message. -/
  | serverError (msg : Str)
deriving DecidableEq

/-- The function `check_permissions` (mcp_server.py:51-58): reject with the blanket
no-permissions error when the token's scope list is empty, otherwise
collect the required scopes absent from the token and reject with them
when any exist. -/
def check_permissions (access_token : AccessToken) (required_scopes : List Str) :
    Except ToolErr Unit :=
  if access_token.scopes = [] then
    .error .noPermissions
  else
    let missing_scopes := required_scopes.filter (fun scope => decide (scope ∉ access_token.scopes))
    if missing_scopes = [] then .ok () else .error (.insufficientScope missing_scopes)

/-- The list `sensitive_keywords` (mcp_server.py:134). -/
def sensitive_keywords : List Str :=
  [chars "password", chars "secret", chars "token", chars "private", chars "confidential"]

/-- The list `dangerous_keywords` (mcp_server.py:141). -/
def dangerous_keywords : List Str :=
  [chars "drop", chars "delete", chars "update", chars "insert", chars "alter", chars "create",
   chars "truncate"]

/-- Python expression any of sensitive_keywords contained in the lowered query. -/
def isSensitive (sql_query : Str) : Bool :=
  sensitive_keywords.any (fun keyword => containsSub keyword (pyLower sql_query))

/-- Python expression any of dangerous_keywords contained in the lowered query. -/
def isDangerous (sql_query : Str) : Bool :=
  dangerous_keywords.any (fun keyword => containsSub keyword (pyLower sql_query))

/-- Python test of the substring limit in the lowered query. -/
def containsLimit (sql_query : Str) : Bool := containsSub (chars "limit") (pyLower sql_query)

/-- The LIMIT-injection step (mcp_server.py:149-150):
`if 'limit' not in sql_query.lower(): sql_query = f"{sql_query.rstrip(';')} LIMIT {limit}"`. -/
def addLimit (limit : Int) (sql_query : Str) : Str :=
  if containsLimit sql_query then sql_query
  else rstripSemis sql_query ++ chars " LIMIT " ++ intToStr limit

/-- Decoder state while inside a multi-byte UTF-8 sequence: number of
continuation bytes still expected, code point accumulated so far, and the
allowed range for the next byte (which encodes the overlong/surrogate
restrictions attached to the lead byte). -/
structure Utf8State where
  pending : Nat
  acc : Nat
  lo : Nat
  hi : Nat

/-- Classify a byte as a sequence start: either it is a complete ASCII
character (`Except.error (some c)`), an invalid lead byte that the
ignore-errors decoder drops (`Except.error none`), or the lead of a
multi-byte sequence with its continuation constraints. -/
def utf8Lead (b : Nat) : Except (Option Char) Utf8State :=
  if b < 0x80 then .error (some (Char.ofNat b))
  else if 0xC2 ≤ b && b ≤ 0xDF then .ok ⟨1, b - 0xC0, 0x80, 0xBF⟩
  else if b = 0xE0 then .ok ⟨2, 0, 0xA0, 0xBF⟩
  else if b = 0xED then .ok ⟨2, 0xD, 0x80, 0x9F⟩
  else if 0xE0 ≤ b && b ≤ 0xEF then .ok ⟨2, b - 0xE0, 0x80, 0xBF⟩
  else if b = 0xF0 then .ok ⟨3, 0, 0x90, 0xBF⟩
  else if b = 0xF4 then .ok ⟨3, 4, 0x80, 0x8F⟩
  else if 0xF0 ≤ b && b ≤ 0xF4 then .ok ⟨3, b - 0xF0, 0x80, 0xBF⟩
  else .error none

/-- One step of the ignore-errors UTF-8 decoder: feed one byte, emit any
completed characters.  An out-of-range continuation byte drops the pending
sequence and is reconsidered as a fresh lead byte. -/
def utf8Step (st : Option Utf8State) (b : Nat) : Option Utf8State × List Char :=
  match st with
  | none =>
    match utf8Lead b with
    | .error c => (none, c.toList)
    | .ok s => (some s, [])
  | some s =>
    if s.lo ≤ b && b ≤ s.hi then
      let acc := s.acc * 0x40 + (b - 0x80)
      if s.pending = 1 then (none, [Char.ofNat acc])
      else (some ⟨s.pending - 1, acc, 0x80, 0xBF⟩, [])
    else
      match utf8Lead b with
      | .error c => (none, c.toList)
      | .ok s' => (some s', [])

/-- Model of the standard-library call `payload.decode('utf-8', errors='ignore')`
(database.py:77): single-pass decoding that drops invalid bytes and a
truncated trailing sequence, never raising. -/
def decodeUtf8Ignore (payload : List Nat) : Str :=
  (payload.foldl
    (fun (p : Option Utf8State × Str) b =>
      let step := utf8Step p.1 b
      (step.1, p.2 ++ step.2))
    (none, [])).2

/-- Dynamic (driver-returned) Python values.  The constructors partition the
dynamic universe by which branch of `_convert_row_types` (database.py:66-80)
matches them: `datetime` stands for any value exposing `isoformat()` and
carries the string that call returns; `obj` stands for any remaining object
and carries its `str()` rendering. -/
inductive PyValue where
  | none
  | bool (b : Bool)
  | int (i : Int)
  | float (f : Float)
  | str (s : Str)
  | datetime (iso : Str)
  | bytes (payload : List Nat)
  | obj (rendering : Str)

/-- Membership in the five-primitive transport-safe set
(null, boolean, integer, float, string). -/
def isPrimitive : PyValue → Bool
  | .none | .bool _ | .int _ | .float _ | .str _ => true
  | .datetime _ | .bytes _ | .obj _ => false

/-- Per-cell conversion of `_convert_row_types` (database.py:69-79), branch
for branch: `None` passes through; `isinstance (int, float, str, bool)`
passes through; a value with `isoformat` becomes that textual form; `bytes`
is decoded as UTF-8 ignoring invalid bytes; anything else is stringified. -/
def convertValue : PyValue → PyValue
  | .none => .none
  | .bool b => .bool b
  | .int i => .int i
  | .float f => .float f
  | .str s => .str s
  | .datetime iso => .str iso
  | .bytes payload => .str (decodeUtf8Ignore payload)
  | .obj rendering => .str rendering

/-- A result row: ordered dict from column name to dynamic value. -/
abbrev Row := List (Str × PyValue)

/-- `_convert_row_types` over a whole row (database.py:66-80): rebuild the
dict converting every value. -/
def convert_row_types (row : Row) : Row :=
  row.map (fun kv => (kv.1, convertValue kv.2))

/-- Driver oracle: what `cursor.execute` + `fetchall` produce for a query —
either a raised exception (message) or the fetched rows. -/
abbrev Driver := Str → Except Str (List Row)

/-- One observable database interaction of a handler: an
`initialize_services()` invocation or a `db_manager.execute_query(q)` call. -/
inductive DbCall where
  | init
  | exec (query : Str)
deriving DecidableEq

namespace DatabaseManager

/-- `execute_query` (database.py:39-64): `None` when no connection is
established, `None` when the cursor raises, converted rows when the result
is non-empty (truthy), and `[]` when the fetch succeeds with no rows.
Every branch returns; nothing propagates an exception. -/
def execute_query (connected : Bool) (driver : Driver) (query : Str) :
    Option (List Row) :=
  if !connected then none
  else
    match driver query with
    | .error _ => none
    | .ok [] => some []
    | .ok (r :: rs) => some ((r :: rs).map convert_row_types)

/-- Query text `DESCRIBE {table_name}` (database.py:86). -/
def describeQuery (table_name : Str) : Str := chars "DESCRIBE " ++ table_name

/-- Query text `SELECT * FROM {table_name} LIMIT 5` (database.py:90). -/
def sampleQuery (table_name : Str) : Str :=
  chars "SELECT * FROM " ++ table_name ++ chars " LIMIT 5"

/-- Query text `SELECT COUNT(*) as total_rows FROM {table_name}` (database.py:94). -/
def countQuery (table_name : Str) : Str :=
  chars "SELECT COUNT(*) as total_rows FROM " ++ table_name

/-- The dict returned by `get_table_info`: `structure`/`sample_data` may each
be a row list or `None` (the failure value of `execute_query`), and
`total_rows` is whatever dynamic value the count query produced. -/
structure TableInfo where
  structure_ : Option (List Row)
  sample_data : Option (List Row)
  total_rows : PyValue

/-- Python dict subscript `row[key]`, `none` meaning a `KeyError`. -/
def lookupKey (row : Row) (key : Str) : Option PyValue :=
  (row.find? (fun kv => kv.1 == key)).map Prod.snd

/-- `get_table_info` (database.py:82-107): run the three queries through
`execute_query` (which swallows driver errors into `None`), then read
`count_data[0]['total_rows']` when the count result is truthy.  The
`except` branch returning `{}` (modelled as `none`) is reachable only via
the `KeyError` of that subscript.  Also returns the issued call list. -/
def get_table_info (connected : Bool) (driver : Driver) (table_name : Str) :
    Option TableInfo × List DbCall :=
  let structure_data := execute_query connected driver (describeQuery table_name)
  let sample_data := execute_query connected driver (sampleQuery table_name)
  let count_data := execute_query connected driver (countQuery table_name)
  let trace := [DbCall.exec (describeQuery table_name), DbCall.exec (sampleQuery table_name),
                DbCall.exec (countQuery table_name)]
  match count_data with
  | some (row0 :: _) =>
      match lookupKey row0 (chars "total_rows") with
      | some v => (some ⟨structure_data, sample_data, v⟩, trace)
      | none => (none, trace)
  | _ => (some ⟨structure_data, sample_data, .int 0⟩, trace)

end DatabaseManager

/-- Process-wide server state an inbound call sees: whether the global
`db_manager` is already initialized (and connected), whether a fresh
`connect()` would succeed, and the driver oracle. -/
structure ServerState where
  dbInitialized : Bool
  connectOk : Bool
  driver : Driver

/-- Whether `initialize_services()` (mcp_server.py:30-37) completes without
raising: the global is already set, or a fresh connect succeeds. -/
def initOk (st : ServerState) : Bool := st.dbInitialized || st.connectOk

/-- Required scopes of `execute_sql_query` (mcp_server.py:131). -/
def readTableDataScope : List Str := [chars "data:read_table_data"]

/-- Required scopes of the table-listing/structure operations (mcp_server.py:69,95). -/
def readTablesScope : List Str := [chars "data:read_tables"]

/-- Python's `str(n)` for a natural row count. -/
def natToStr (n : Nat) : Str := (toString n).data

/-- Success message of `execute_sql_query` (mcp_server.py:166). -/
def querySuccessMsg (n : Nat) : Str := chars "查询成功，返回 " ++ natToStr n ++ chars " 行数据"

/-- The success envelope of `execute_sql_query` (mcp_server.py:160-167). -/
structure QueryEnvelope where
  user_id : Str
  query : Str
  row_count : Nat
  columns : List Str
  data : List Row
  message : Str

/-- `execute_sql_query` (mcp_server.py:120-170), with its database-call
trace.  Order as in the source: scope check, sensitive-query re-check,
mutation-keyword filter (all before the `try`), then lazily initialize,
inject the LIMIT clause, delegate to the Data Access Layer, and build the
envelope; failures inside the `try` are re-wrapped by the `except`. -/
def execute_sql_query (access_token : AccessToken) (sql_query : Str) (limit : Int)
    (st : ServerState) : Except ToolErr QueryEnvelope × List DbCall :=
  match check_permissions access_token readTableDataScope with
  | .error e => (.error e, [])
  | .ok _ =>
    match (if isSensitive sql_query then check_permissions access_token readTableDataScope
           else .ok ()) with
    | .error e => (.error e, [])
    | .ok _ =>
      if isDangerous sql_query then (.error .forbiddenOperation, [])
      else if !(initOk st) then
        (.error (.serverError (chars "查询执行失败: 数据库连接失败")), [.init])
      else
        let sql' := addLimit limit sql_query
        match DatabaseManager.execute_query true st.driver sql' with
        | none =>
            (.error (.serverError (chars "查询执行失败: 查询执行失败")), [.init, .exec sql'])
        | some result_data =>
            (.ok { user_id := access_token.client_id
                   query := sql'
                   row_count := result_data.length
                   columns := match result_data with | [] => [] | r :: _ => r.map Prod.fst
                   data := result_data
                   message := querySuccessMsg result_data.length },
             [.init, .exec sql'])

/-- Python `int(v)` restricted to the value kinds that actually reach the
`total_rows` cell (integers, booleans); other kinds are conservatively
modelled as the conversion raising (`none`). -/
def pyInt : PyValue → Option Int
  | .int i => some i
  | .bool b => some (if b then 1 else 0)
  | _ => Option.none

/-- The success envelope of `get_table_structure` (mcp_server.py:105-114);
`structure`/`sample_data` keys are present only when non-`None`. -/
structure StructEnvelope where
  user_id : Str
  table_name : Str
  total_rows : Int
  structure_ : Option (List Row)
  sample_data : Option (List Row)

/-- Message 表 '...' 不存在或无法访问 (mcp_server.py:102). -/
def tableNotFoundMsg (table_name : Str) : Str :=
  chars "表 '" ++ table_name ++ chars "' 不存在或无法访问"

/-- `get_table_structure` (mcp_server.py:85-117) with its database-call
trace.  `get_table_info` only returns the falsy `{}` via its internal
`KeyError` path, so the not-found `ToolError` (re-wrapped by the outer
`except`) fires only then; otherwise the envelope is built from whatever
the three queries produced, including `None` values. -/
def get_table_structure (access_token : AccessToken) (table_name : Str)
    (st : ServerState) : Except ToolErr StructEnvelope × List DbCall :=
  match check_permissions access_token readTablesScope with
  | .error e => (.error e, [])
  | .ok _ =>
    if !(initOk st) then
      (.error (.serverError (chars "获取表结构失败: 数据库连接失败")), [.init])
    else
      match DatabaseManager.get_table_info true st.driver table_name with
      | (Option.none, trace) =>
          (.error (.serverError (chars "获取表结构失败: " ++ tableNotFoundMsg table_name)),
           .init :: trace)
      | (some table_info, trace) =>
          match pyInt table_info.total_rows with
          | Option.none =>
              (.error (.serverError (chars "获取表结构失败: int() 参数无效")), .init :: trace)
          | some n =>
              (.ok { user_id := access_token.client_id
                     table_name := table_name
                     total_rows := n
                     structure_ := table_info.structure_
                     sample_data := table_info.sample_data },
               .init :: trace)

/-- The envelope of `get_user_permissions` (mcp_server.py:174-214), with the
`permissions` sub-dict inlined. -/
structure PermEnvelope where
  user_id : Str
  scopes : List Str
  can_read_tables : Bool
  can_read_table_data : Bool
  message : Str

/-- `get_user_permissions` (mcp_server.py:174-214).  Its input is the
outcome of `get_access_token()`: raised (`Except.error`), absent
(`Except.ok none`), or present.  Every case returns an envelope; nothing
is re-raised. -/
def get_user_permissions (token_result : Except Str (Option AccessToken)) : PermEnvelope :=
  match token_result with
  | .error e =>
      { user_id := chars "error", scopes := [], can_read_tables := false,
        can_read_table_data := false, message := chars "权限检查出错: " ++ e }
  | .ok Option.none =>
      { user_id := chars "anonymous", scopes := [], can_read_tables := false,
        can_read_table_data := false, message := chars "未认证用户，无权限" }
  | .ok (some access_token) =>
      { user_id := if access_token.client_id = [] then chars "unknown"
                   else access_token.client_id
        scopes := access_token.scopes
        can_read_tables := access_token.scopes.contains (chars "data:read_tables")
        can_read_table_data := access_token.scopes.contains (chars "data:read_table_data")
        message := chars "权限信息获取成功" }

/-- The envelope of `health_check` (mcp_server.py:226-236). -/
structure HealthEnvelope where
  status : Str
  database_connected : Bool
  message : Str

/-- `health_check` (mcp_server.py:218-236): try to initialize; on success
report healthy (the global is then non-`None`), on failure catch the
exception and report unhealthy.  Every case returns an envelope. -/
def health_check (st : ServerState) : HealthEnvelope :=
  if initOk st then
    { status := chars "healthy", database_connected := true, message := chars "服务运行正常" }
  else
    { status := chars "unhealthy", database_connected := false,
      message := chars "服务异常: 数据库连接失败" }

/-- A concrete token carrying the scope `execute_sql_query` requires. -/
def tokAuth : AccessToken := ⟨chars "client", [chars "data:read_table_data"]⟩

/-- A concrete token carrying the scope the table operations require. -/
def tokTables : AccessToken := ⟨chars "client", [chars "data:read_tables"]⟩

/-- A concrete healthy server state whose driver returns no rows. -/
def stOk : ServerState := ⟨true, true, fun _ => .ok []⟩

/-- A concrete connected server state whose driver raises on every query
(the situation of a nonexistent table). -/
def stFail : ServerState := ⟨true, true, fun _ => .error (chars "Table does not exist")⟩

theorem pyLower_append (a b : Str) : pyLower (a ++ b) = pyLower a ++ pyLower b :=
  List.map_append _ a b

theorem pyLower_limit_clause : pyLower (chars " LIMIT ") = chars " limit " := by decide

theorem containsLimit_appended (a b : Str) :
    containsLimit (a ++ (chars " LIMIT " ++ b)) = true := by
  have h : chars "limit" <:+: pyLower (a ++ (chars " LIMIT " ++ b)) := by
    rw [pyLower_append, pyLower_append, pyLower_limit_clause]
    exact List.IsInfix.trans (by decide) (List.infix_append' _ _ _)
  simpa [containsLimit, containsSub] using h

/-- C10: the limit-injection transformation is idempotent: when the input
already contains the substring limit it is returned unchanged, and
otherwise the appended clause itself contains the substring limit, so a
second application changes nothing. -/
theorem addLimit_idempotent (limit : Int) (sql_query : Str) :
    addLimit limit (addLimit limit sql_query) = addLimit limit sql_query := by
  cases hc : containsLimit sql_query with
  | true => simp [addLimit, hc]
  | false => simp [addLimit, hc, containsLimit_appended]

/-- C1: for every SQL text containing a mutation keyword (case-insensitive
substring scan), `execute_sql_query` with a token passing the scope check
fails with the forbidden-operation error and performs zero database calls:
neither `initialize_services` nor `execute_query` appears in the trace. -/
theorem dangerous_query_forbidden_no_db (access_token : AccessToken) (sql_query : Str)
    (limit : Int) (st : ServerState)
    (hauth : check_permissions access_token readTableDataScope = .ok ())
    (hdanger : isDangerous sql_query = true) :
    execute_sql_query access_token sql_query limit st = (.error .forbiddenOperation, []) := by
  unfold execute_sql_query
  cases hs : isSensitive sql_query <;> simp [hauth, hs, hdanger]

/-- Witness for C1 at the concrete query DROP TABLE users with an
authorized token. -/
theorem dangerous_query_forbidden_no_db_witness :
    execute_sql_query tokAuth (chars "DROP TABLE users") 100 stOk
      = (.error .forbiddenOperation, []) :=
  dangerous_query_forbidden_no_db tokAuth (chars "DROP TABLE users") 100 stOk rfl rfl

/-- Variant of `execute_sql_query` with the sensitive-query re-check
(mcp_server.py:133-138) removed; stated from the spec's description of the
re-check as behaviourally redundant, and compared with the source-faithful
definition in the C9 theorem. -/
def execute_sql_query_no_recheck (access_token : AccessToken) (sql_query : Str) (limit : Int)
    (st : ServerState) : Except ToolErr QueryEnvelope × List DbCall :=
  match check_permissions access_token readTableDataScope with
  | .error e => (.error e, [])
  | .ok _ =>
      if isDangerous sql_query then (.error .forbiddenOperation, [])
      else if !(initOk st) then
        (.error (.serverError (chars "查询执行失败: 数据库连接失败")), [.init])
      else
        let sql' := addLimit limit sql_query
        match DatabaseManager.execute_query true st.driver sql' with
        | none =>
            (.error (.serverError (chars "查询执行失败: 查询执行失败")), [.init, .exec sql'])
        | some result_data =>
            (.ok { user_id := access_token.client_id
                   query := sql'
                   row_count := result_data.length
                   columns := match result_data with | [] => [] | r :: _ => r.map Prod.fst
                   data := result_data
                   message := querySuccessMsg result_data.length },
             [.init, .exec sql'])

/-- C9: the sensitive-query re-check runs `check_permissions` again with the
same token and the same required scope list; since that check is a pure
function of its arguments, the re-check succeeds whenever the first check
did, and `execute_sql_query` is extensionally equal to the variant without
the re-check — no query is ever rejected solely for being sensitive. -/
theorem sensitive_recheck_redundant (access_token : AccessToken) (sql_query : Str)
    (limit : Int) (st : ServerState) :
    execute_sql_query access_token sql_query limit st
      = execute_sql_query_no_recheck access_token sql_query limit st := by
  unfold execute_sql_query execute_sql_query_no_recheck
  cases hc : check_permissions access_token readTableDataScope with
  | error e => rfl
  | ok u => cases u; cases hs : isSensitive sql_query <;> simp [hc, hs]

theorem filter_missing_mem (access_token : AccessToken) (required_scopes : List Str) :
    ∀ x, x ∈ required_scopes.filter (fun scope => decide (scope ∉ access_token.scopes))
      ↔ x ∈ required_scopes ∧ x ∉ access_token.scopes := by
  intro x; simp [List.mem_filter]

theorem filter_missing_nil (access_token : AccessToken) (required_scopes : List Str) :
    (required_scopes.filter (fun scope => decide (scope ∉ access_token.scopes)) = [])
      ↔ ∀ s ∈ required_scopes, s ∈ access_token.scopes := by
  rw [List.filter_eq_nil_iff]
  constructor
  · intro h s hs
    by_contra hns
    exact h s hs (by simpa using hns)
  · intro h s hs
    simp [h s hs]

/-- C3: for every token with a non-empty scope list, `check_permissions`
accepts exactly when the token's scopes form a superset (set semantics —
order and duplicates irrelevant) of the required scopes; when some required
scope is absent it rejects with the insufficient-scope error whose missing
list contains exactly the elements of requiredScopes minus the token's
scopes. -/
theorem check_permissions_superset (access_token : AccessToken) (required_scopes : List Str)
    (hne : access_token.scopes ≠ []) :
    (check_permissions access_token required_scopes = .ok ()
        ↔ required_scopes.toFinset ⊆ access_token.scopes.toFinset)
    ∧ (¬ required_scopes.toFinset ⊆ access_token.scopes.toFinset →
        ∃ missing, check_permissions access_token required_scopes
            = .error (.insufficientScope missing)
          ∧ missing ≠ []
          ∧ ∀ x, x ∈ missing ↔ x ∈ required_scopes ∧ x ∉ access_token.scopes) := by
  have hsub : required_scopes.toFinset ⊆ access_token.scopes.toFinset
      ↔ ∀ s ∈ required_scopes, s ∈ access_token.scopes := by
    simp [Finset.subset_iff]
  unfold check_permissions
  rw [if_neg hne]
  by_cases hm :
      required_scopes.filter (fun scope => decide (scope ∉ access_token.scopes)) = []
  · rw [if_pos hm]
    refine ⟨iff_of_true rfl (hsub.mpr ((filter_missing_nil _ _).mp hm)), fun hcon => ?_⟩
    exact absurd (hsub.mpr ((filter_missing_nil _ _).mp hm)) hcon
  · rw [if_neg hm]
    constructor
    · constructor
      · intro h; simp at h
      · intro hall
        exact absurd ((filter_missing_nil _ _).mpr (hsub.mp hall)) hm
    · intro _
      exact ⟨_, rfl, hm, filter_missing_mem _ _⟩

/-- Witness for C3: a token holding scope a passes a check requiring a,
and a check requiring b instead rejects with missing list characterized as
the set difference. -/
theorem check_permissions_superset_witness :
    check_permissions ⟨chars "u", [chars "a"]⟩ [chars "a"] = .ok ()
      ∧ ∃ missing, check_permissions ⟨chars "u", [chars "a"]⟩ [chars "b"]
            = .error (.insufficientScope missing)
          ∧ missing ≠ []
          ∧ ∀ x, x ∈ missing ↔ x ∈ [chars "b"] ∧ x ∉ [chars "a"] :=
  ⟨(check_permissions_superset ⟨chars "u", [chars "a"]⟩ [chars "a"] (by decide)).1.mpr
      (by decide),
   (check_permissions_superset ⟨chars "u", [chars "a"]⟩ [chars "b"] (by decide)).2 (by decide)⟩

/-- C4 counterexample: with an empty-scope token, `execute_sql_query` on
SELECT 1 is rejected with the blanket no-permissions error — not the
insufficient-scope error naming data:read_table_data that the claim
states. -/
theorem empty_scopes_rejection_counterexample :
    execute_sql_query ⟨chars "client", []⟩ (chars "SELECT 1") 100 stOk
        = (.error .noPermissions, [])
      ∧ ToolErr.noPermissions ≠ ToolErr.insufficientScope [chars "data:read_table_data"] :=
  ⟨rfl, by decide⟩

/-- C4 amended: for a present token whose scope set is empty, calling
execute_sql_query on SELECT 1 is rejected with the blanket NoPermissions
error (the empty-scope branch of the check precedes the missing-scope
computation, so no missing list is named), with zero database calls. -/
theorem empty_scopes_noPermissions (client_id : Str) (limit : Int) (st : ServerState) :
    execute_sql_query ⟨client_id, []⟩ (chars "SELECT 1") limit st
      = (.error .noPermissions, []) := rfl

/-- C2 counterexample: a query that contains the substring limit and ends
with a semicolon is executed fully unchanged — the trailing semicolon is
not stripped, contrary to the claim's contains-limit branch. -/
theorem limit_passthrough_keeps_semicolon :
    addLimit 100 (chars "SELECT 1 LIMIT 5;") = chars "SELECT 1 LIMIT 5;"
      ∧ addLimit 100 (chars "SELECT 1 LIMIT 5;")
          ≠ rstripSemis (chars "SELECT 1 LIMIT 5;") := by
  constructor
  · decide
  · decide

/-- C2 amended: when the SQL text does not contain the substring limit
(case-insensitive), the executed text is the raw text with trailing
semicolons stripped followed by a LIMIT clause with the caller-supplied
limit; when it does contain limit, the text is passed through fully
unmodified (no semicolon stripping); and the success envelope's query field
is exactly the executed text, which is also the text sent to the
database. -/
theorem limit_injection_exact :
    (∀ sql_query limit, containsLimit sql_query = false →
        addLimit limit sql_query
          = rstripSemis sql_query ++ chars " LIMIT " ++ intToStr limit)
    ∧ (∀ sql_query limit, containsLimit sql_query = true →
        addLimit limit sql_query = sql_query)
    ∧ (∀ access_token sql_query limit st env trace,
        execute_sql_query access_token sql_query limit st = (.ok env, trace) →
          env.query = addLimit limit sql_query
          ∧ trace = [.init, .exec (addLimit limit sql_query)]) := by
  refine ⟨fun s n h => by simp [addLimit, h], fun s n h => by simp [addLimit, h], ?_⟩
  intro access_token sql_query limit st env trace h
  unfold execute_sql_query at h
  cases hc : check_permissions access_token readTableDataScope with
  | error e => rw [hc] at h; simp at h
  | ok u =>
    cases u
    rw [hc] at h
    simp only [ite_self] at h
    cases hd : isDangerous sql_query with
    | true => simp [hd] at h
    | false =>
      simp only [hd, Bool.false_eq_true, if_false] at h
      cases hi : initOk st with
      | false => simp [hi] at h
      | true =>
        simp only [hi, Bool.not_true, Bool.false_eq_true, if_false] at h
        cases he : DatabaseManager.execute_query true st.driver (addLimit limit sql_query) with
        | none => rw [he] at h; simp at h
        | some result_data =>
          rw [he] at h
          injection h with h1 h2
          injection h1 with h1
          subst h1
          subst h2
          exact ⟨rfl, rfl⟩

/-- Witness for C2's amended theorem: the spec scenario SELECT * FROM users
with the default limit 100, a passthrough query already containing LIMIT,
and a concrete successful call whose envelope carries the executed text. -/
theorem limit_injection_exact_witness :
    addLimit 100 (chars "SELECT * FROM users")
        = rstripSemis (chars "SELECT * FROM users") ++ chars " LIMIT " ++ intToStr 100
      ∧ addLimit 100 (chars "SELECT 1 LIMIT 5") = chars "SELECT 1 LIMIT 5"
      ∧ ((⟨chars "client", addLimit 100 (chars "SELECT * FROM users"), 0, [], [],
            querySuccessMsg 0⟩ : QueryEnvelope).query
            = addLimit 100 (chars "SELECT * FROM users")
          ∧ [DbCall.init, DbCall.exec (addLimit 100 (chars "SELECT * FROM users"))]
            = [DbCall.init, DbCall.exec (addLimit 100 (chars "SELECT * FROM users"))]) :=
  ⟨limit_injection_exact.1 (chars "SELECT * FROM users") 100 (by decide),
   limit_injection_exact.2.1 (chars "SELECT 1 LIMIT 5") 100 (by decide),
   limit_injection_exact.2.2 tokAuth (chars "SELECT * FROM users") 100 stOk _ _ rfl⟩

/-- C5: the divergence of the code from the claim.  First conjunct: the
describe-table routine always issues exactly the three sequential queries
(structure, sample, count).  Second conjunct: at a table for which every
query fails at the driver (a nonexistent table), `get_table_structure`
returns a success envelope with total_rows 0 and no structure or sample
data — a partial envelope, not an error naming the table — because
`execute_query` swallows failures into `None` and the empty-dict/ToolError
paths of get_table_info/get_table_structure are never taken. -/
theorem get_table_structure_partial_on_failure :
    (∀ connected driver table_name,
        (DatabaseManager.get_table_info connected driver table_name).2
          = [.exec (DatabaseManager.describeQuery table_name),
             .exec (DatabaseManager.sampleQuery table_name),
             .exec (DatabaseManager.countQuery table_name)])
    ∧ get_table_structure tokTables (chars "nonexistent_table") stFail
        = (.ok ⟨chars "client", chars "nonexistent_table", 0, Option.none, Option.none⟩,
           [.init, .exec (DatabaseManager.describeQuery (chars "nonexistent_table")),
            .exec (DatabaseManager.sampleQuery (chars "nonexistent_table")),
            .exec (DatabaseManager.countQuery (chars "nonexistent_table"))]) := by
  constructor
  · intro connected driver table_name
    cases hc : DatabaseManager.execute_query connected driver
        (DatabaseManager.countQuery table_name) with
    | none => simp [DatabaseManager.get_table_info, hc]
    | some rows =>
      cases rows with
      | nil => simp [DatabaseManager.get_table_info, hc]
      | cons row0 rest =>
        cases hk : DatabaseManager.lookupKey row0 (chars "total_rows") <;>
          simp [DatabaseManager.get_table_info, hc, hk]
  · rfl

/-- C6: the row-normalization function of the Data Access Layer is a total
function (the embedding has no exception path, matching the raise-free
source), and every converted value lies in the five-primitive set
(null, boolean, integer, float, string): primitives pass through, datetime
values become their textual form, bytes are decoded best-effort, and
everything else is stringified. -/
theorem convert_row_types_primitive :
    (∀ v, isPrimitive (convertValue v) = true)
    ∧ ∀ row, (convert_row_types row).all (fun kv => isPrimitive kv.2) = true := by
  have hval : ∀ v, isPrimitive (convertValue v) = true := by
    intro v; cases v <;> rfl
  refine ⟨hval, fun row => ?_⟩
  rw [List.all_eq_true]
  intro kv hkv
  rcases List.mem_map.mp hkv with ⟨kv', _, rfl⟩
  exact hval kv'.2

/-- C7 counterexample: when the token is merely absent (not an internal
error), get_user_permissions returns the anonymous envelope, whose user_id
is anonymous and not the claimed error. -/
theorem missing_token_envelope_not_error :
    (get_user_permissions (.ok Option.none)).user_id = chars "anonymous"
      ∧ (get_user_permissions (.ok Option.none)).user_id ≠ chars "error" := by
  constructor
  · rfl
  · decide

/-- C7 amended: get_user_permissions and health_check never raise (both are
total functions into envelope types, matching the catch-all source).  Every
caught internal error in get_user_permissions (e.g. a failing token
retrieval) yields the degraded envelope with user_id error, empty scopes,
all permissions false and an explanatory message; a merely missing token
yields the anonymous envelope instead; and every database failure in
health_check yields status unhealthy, database_connected false and an
explanatory message. -/
theorem fail_soft_envelopes :
    (∀ e, get_user_permissions (.error e)
        = ⟨chars "error", [], false, false, chars "权限检查出错: " ++ e⟩)
    ∧ get_user_permissions (.ok Option.none)
        = ⟨chars "anonymous", [], false, false, chars "未认证用户，无权限"⟩
    ∧ ∀ st : ServerState, initOk st = false →
        health_check st = ⟨chars "unhealthy", false, chars "服务异常: 数据库连接失败"⟩ := by
  refine ⟨fun e => rfl, rfl, fun st h => ?_⟩
  simp [health_check, h]

/-- Witness for C7's amended theorem: a concrete server state in which
initialization fails. -/
theorem fail_soft_envelopes_witness :
    health_check ⟨false, false, fun _ => .ok []⟩
      = ⟨chars "unhealthy", false, chars "服务异常: 数据库连接失败"⟩ :=
  fail_soft_envelopes.2.2 ⟨false, false, fun _ => .ok []⟩ rfl

/-- C8: the Data Access Layer's execute_query (a total function — no branch
propagates an exception, matching the catch-all source) returns None when
no connection is established, None when the driver raises, the empty list
on a successful query with zero rows, and None and the empty list are
distinct values. -/
theorem execute_query_none_vs_empty :
    (∀ driver query, DatabaseManager.execute_query false driver query = Option.none)
    ∧ (∀ driver query e, driver query = .error e →
        DatabaseManager.execute_query true driver query = Option.none)
    ∧ (∀ driver query, driver query = .ok [] →
        DatabaseManager.execute_query true driver query = some [])
    ∧ (Option.none : Option (List Row)) ≠ some [] := by
  refine ⟨fun d q => rfl, fun d q e h => ?_, fun d q h => ?_, by simp⟩
  · simp [DatabaseManager.execute_query, h]
  · simp [DatabaseManager.execute_query, h]

/-- Witness for C8 at a concrete raising driver and a concrete empty-result
driver. -/
theorem execute_query_none_vs_empty_witness :
    DatabaseManager.execute_query true (fun _ => .error (chars "boom")) (chars "SELECT 1")
        = Option.none
      ∧ DatabaseManager.execute_query true (fun _ => .ok []) (chars "SELECT 1") = some [] :=
  ⟨execute_query_none_vs_empty.2.1 _ _ (chars "boom") rfl,
   execute_query_none_vs_empty.2.2.1 _ _ rfl⟩

end TextToSql
